import Mathlib

/-!
Shallow embedding of the Rust tutorial repository (examples/structs_and_methods.rs,
examples/enums_and_matching.rs, examples/error_handling.rs, src/main.rs).

Modelling conventions:
- Rust `f64` values are modelled as exact rationals `ℚ` where only field
  arithmetic and comparisons occur (bank balances, division), and as reals `ℝ`
  where the code uses `sqrt` or the constant π (`Shape::area`).
- Rust `i32` / `u32` are modelled as `Int` / `Nat`; the bounds 2^31 and 2^32
  appear explicitly wherever the source checks for overflow (`checked_mul`,
  `str::parse`) and at the always-on overflow panic of the `i32` division
  operator, whose panic is modelled as an `Except` error outcome.
- `Result<T, E>` is `Except E T`, `Option<T>` is `Option T`.
- A Rust method taking `&mut self` becomes a function returning the updated
  value (paired with the method's return value when it has one).
-/

deriving instance DecidableEq for Except

namespace StructsAndMethods

/-- `BankAccount` from examples/structs_and_methods.rs. -/
structure BankAccount where
  account_number : String
  owner : String
  balance : ℚ
  deriving Repr, DecidableEq

/-- `BankAccount::new`: fresh account with balance 0.0. -/
def BankAccount.new (account_number owner : String) : BankAccount :=
  { account_number := account_number, owner := owner, balance := 0 }

/-- `BankAccount::deposit(&mut self, amount)`: adds `amount` when positive,
otherwise does nothing; returns no value. -/
def BankAccount.deposit (self : BankAccount) (amount : ℚ) : BankAccount :=
  if amount > 0 then { self with balance := self.balance + amount } else self

/-- `BankAccount::withdraw(&mut self, amount) -> Result<(), String>`:
rejects non-positive amounts, then amounts above the balance, otherwise
subtracts. Returned pair is (method result, state of `self` after the call). -/
def BankAccount.withdraw (self : BankAccount) (amount : ℚ) :
    Except String Unit × BankAccount :=
  if amount ≤ 0 then (.error "Amount must be positive", self)
  else if amount > self.balance then (.error "Insufficient funds", self)
  else (.ok (), { self with balance := self.balance - amount })

/-- `BankAccount::get_balance`. -/
def BankAccount.get_balance (self : BankAccount) : ℚ :=
  self.balance

/-- One call mutating a bank account: either `deposit(amount)` or
`withdraw(amount)` (whose `Result` the caller may ignore). -/
inductive AccountOp where
  | deposit (amount : ℚ)
  | withdraw (amount : ℚ)

/-- Effect of one `AccountOp` on an account. -/
def runOp (acc : BankAccount) : AccountOp → BankAccount
  | .deposit amount => acc.deposit amount
  | .withdraw amount => (acc.withdraw amount).2

/-- Effect of a sequence of deposit/withdraw calls, in order. -/
def runOps (acc : BankAccount) (ops : List AccountOp) : BankAccount :=
  ops.foldl runOp acc

end StructsAndMethods

namespace RustStd

/-- The Rust `i32` division operator `a / b`: truncates toward zero
(`Int.tdiv`), panics on a zero divisor, and panics with an overflow in every
build profile at `i32::MIN / -1` (the one in-range quotient, 2147483648,
that does not fit an i32). A panic is the `.error` outcome. -/
def i32Div (a b : Int) : Except String Int :=
  if b = 0 then .error "attempt to divide by zero"
  else if a = -2147483648 ∧ b = -1 then .error "attempt to divide with overflow"
  else .ok (a.tdiv b)

end RustStd

namespace MainRs

/-- `divide` from src/main.rs: returns `None` on a zero divisor, otherwise
`Some(dividend / divisor)` where `/` is the panicking `i32` division; a
panic escaping the function is the `.error` outcome. -/
def divide (dividend divisor : Int) : Except String (Option Int) :=
  if divisor = 0 then .ok none
  else match RustStd.i32Div dividend divisor with
    | .error e => .error e
    | .ok q => .ok (some q)

end MainRs

namespace EnumsAndMatching

/-- `divide` from examples/enums_and_matching.rs: same shape as the
src/main.rs version, including the reachable `i32::MIN / -1` overflow
panic. -/
def divide (a b : Int) : Except String (Option Int) :=
  if b = 0 then .ok none
  else match RustStd.i32Div a b with
    | .error e => .error e
    | .ok q => .ok (some q)

/-- `TrafficLight` enum. -/
inductive TrafficLight where
  | Red
  | Yellow
  | Green
  deriving Repr, DecidableEq

/-- `TrafficLight::can_go`: `Green => true`, `Red | Yellow => false`. -/
def TrafficLight.can_go : TrafficLight → Bool
  | .Green => true
  | .Red | .Yellow => false

end EnumsAndMatching

namespace RustStd

/-- `std::num::ParseIntError`, by its `IntErrorKind`. -/
inductive ParseIntError where
  | empty
  | invalidDigit
  | posOverflow
  | negOverflow
  deriving Repr, DecidableEq

/-- The `Display` text of each `ParseIntError` kind. -/
def ParseIntError.description : ParseIntError → String
  | .empty => "cannot parse integer from empty string"
  | .invalidDigit => "invalid digit found in string"
  | .posOverflow => "number too large to fit in target type"
  | .negOverflow => "number too small to fit in target type"

/-- `char::to_digit(10)`: the value of a decimal digit character. -/
def digitVal (c : Char) : Option Nat :=
  if c.isDigit then some (c.toNat - 48) else none

/-- The digit-accumulation loop of `i32::from_str` for a positive number:
each step is `checked_mul(10)` then `checked_add(digit)` against the i32
maximum 2147483647, failing with `PosOverflow`. -/
def goPos (acc : Int) : List Char → Except ParseIntError Int
  | [] => .ok acc
  | c :: cs =>
    match digitVal c with
    | none => .error .invalidDigit
    | some d =>
      if acc * 10 > 2147483647 then .error .posOverflow
      else if acc * 10 + d > 2147483647 then .error .posOverflow
      else goPos (acc * 10 + d) cs

/-- The digit-accumulation loop of `i32::from_str` for a negative number:
`checked_mul(10)` then `checked_sub(digit)` against the i32 minimum
-2147483648, failing with `NegOverflow`. -/
def goNeg (acc : Int) : List Char → Except ParseIntError Int
  | [] => .ok acc
  | c :: cs =>
    match digitVal c with
    | none => .error .invalidDigit
    | some d =>
      if acc * 10 < -2147483648 then .error .negOverflow
      else if acc * 10 - d < -2147483648 then .error .negOverflow
      else goNeg (acc * 10 - d) cs

/-- `str::parse::<i32>`: empty input is `Empty`; a lone sign is
`InvalidDigit`; otherwise an optional `+`/`-` sign followed by the digit
loop. -/
def parseI32 : List Char → Except ParseIntError Int
  | [] => .error .empty
  | c :: cs =>
    if c = '+' then match cs with
      | [] => .error .invalidDigit
      | _ :: _ => goPos 0 cs
    else if c = '-' then match cs with
      | [] => .error .invalidDigit
      | _ :: _ => goNeg 0 cs
    else goPos 0 (c :: cs)

/-- The digit-accumulation loop of `u32::from_str`: bound 4294967295. -/
def goU32 (acc : Nat) : List Char → Except ParseIntError Nat
  | [] => .ok acc
  | c :: cs =>
    match digitVal c with
    | none => .error .invalidDigit
    | some d =>
      if acc * 10 > 4294967295 then .error .posOverflow
      else if acc * 10 + d > 4294967295 then .error .posOverflow
      else goU32 (acc * 10 + d) cs

/-- `str::parse::<u32>`: empty input is `Empty`; a lone `+` is
`InvalidDigit`; `-` is not a sign for an unsigned type, so it falls into the
digit loop and fails as `InvalidDigit`. -/
def parseU32 : List Char → Except ParseIntError Nat
  | [] => .error .empty
  | c :: cs =>
    if c = '+' then match cs with
      | [] => .error .invalidDigit
      | _ :: _ => goU32 0 cs
    else goU32 0 (c :: cs)

/-- `str::trim`: drop whitespace from both ends. -/
def trim (cs : List Char) : List Char :=
  ((cs.dropWhile Char.isWhitespace).reverse.dropWhile Char.isWhitespace).reverse

/-- `i32::checked_mul`: `none` when the product leaves the i32 range. -/
def checkedMulI32 (a b : Int) : Option Int :=
  if a * b > 2147483647 ∨ a * b < -2147483648 then none else some (a * b)

end RustStd

namespace ErrorHandling

open RustStd

/-- `divide` from examples/error_handling.rs: `Result<f64, String>`, with the
arithmetic of `f64` field operations modelled exactly over `ℚ`. -/
def divide (a b : ℚ) : Except String ℚ :=
  if b = 0 then .error "Cannot divide by zero" else .ok (a / b)

/-- `AppError` from examples/error_handling.rs. The payload of `IoError` is
the error's display text; `ParseError` carries the converted
`ParseIntError`. -/
inductive AppError where
  | IoError (message : String)
  | ParseError (e : ParseIntError)
  | ValidationError (message : String)
  deriving Repr, DecidableEq

/-- `read_age_from_file`: `File::open`/`read_to_string` are modelled by an
environment `fs` mapping a filename to either the file contents or the io
error text; `?` converts an open failure into `AppError::IoError` and
returns it before any later step runs. A successful read is trimmed,
parsed as `u32` (failure converted to `AppError::ParseError`), then
validated against 150. -/
def read_age_from_file (fs : String → Except String String)
    (filename : String) : Except AppError Nat :=
  match fs filename with
  | .error e => .error (.IoError e)
  | .ok contents =>
    match parseU32 (trim contents.toList) with
    | .error e => .error (.ParseError e)
    | .ok age =>
      if age > 150 then .error (.ValidationError "Age seems unrealistic")
      else .ok age

/-- `Database` from examples/error_handling.rs. -/
structure Database where
  connected : Bool
  deriving Repr, DecidableEq

/-- `Database::new`: starts disconnected. -/
def Database.new : Database := { connected := false }

/-- `Database::connect(&mut self)`: unconditionally sets `connected` and
returns `Ok(())`. -/
def Database.connect (self : Database) : Except String Unit × Database :=
  (.ok (), { self with connected := true })

/-- `Database::query(&self, sql)`: fails when disconnected or on an empty
query, otherwise returns the two simulated rows. `&self` does not mutate. -/
def Database.query (self : Database) (sql : String) :
    Except String (List String) :=
  if !self.connected then .error "Not connected to database"
  else if sql.isEmpty then .error "Empty query"
  else .ok ["result1", "result2"]

/-- `Database::disconnect(&mut self)`: fails when already disconnected,
otherwise clears `connected` and returns `Ok(())`. -/
def Database.disconnect (self : Database) : Except String Unit × Database :=
  if !self.connected then (.error "Already disconnected", self)
  else (.ok (), { self with connected := false })

/-- `process_number`: trim, parse as `i32` (mapping the error to
`"Parse error: {e}"` and short-circuiting with `?`), then `checked_mul(2)`
with overflow reported as `"Multiplication overflow"`. -/
def process_number (input : String) : Except String Int :=
  match parseI32 (trim input.toList) with
  | .error e => .error ("Parse error: " ++ e.description)
  | .ok n =>
    match checkedMulI32 n 2 with
    | none => .error "Multiplication overflow"
    | some m => .ok m

end ErrorHandling

namespace EnumsAndMatching

open RustStd

/-- `parse_age` from examples/enums_and_matching.rs: match on
`input.parse::<u32>()` with a guard `age <= 120` on the `Ok` arm, a
catch-all `Ok(_)` arm below it, and an `Err(_)` arm. -/
def parse_age (input : String) : Except String Nat :=
  match parseU32 input.toList with
  | .ok age => if age ≤ 120 then .ok age else .error "Age seems unrealistic"
  | .error _ => .error "Not a valid number"

/-- `Shape` from examples/enums_and_matching.rs, over `ℝ` (its `area` uses
the constant π and `sqrt`). -/
inductive Shape where
  | Circle (radius : ℝ)
  | Rectangle (width height : ℝ)
  | Triangle (a b c : ℝ)

/-- `Shape::area`: π·r² for circles, width·height for rectangles, and
Heron's formula for triangles. -/
noncomputable def Shape.area : Shape → ℝ
  | .Circle radius => Real.pi * radius * radius
  | .Rectangle width height => width * height
  | .Triangle a b c =>
    let s := (a + b + c) / 2
    Real.sqrt (s * (s - a) * (s - b) * (s - c))

end EnumsAndMatching

open StructsAndMethods

/-- C1: `withdraw(amount)` returns an error when `amount > balance` or
`amount ≤ 0`; otherwise it returns `Ok(())` and the balance strictly
decreases, by exactly `amount`. -/
theorem claim1_withdraw_spec (acc : BankAccount) (amount : ℚ) :
    (amount > acc.balance ∨ amount ≤ 0 →
      ∃ e, (acc.withdraw amount).1 = .error e) ∧
    (¬(amount > acc.balance ∨ amount ≤ 0) →
      (acc.withdraw amount).1 = .ok () ∧
      (acc.withdraw amount).2.balance = acc.balance - amount ∧
      (acc.withdraw amount).2.balance < acc.balance) := by
  unfold BankAccount.withdraw
  constructor
  · rintro (hgt | hle)
    · by_cases hle : amount ≤ 0
      · exact ⟨"Amount must be positive", by simp [hle]⟩
      · exact ⟨"Insufficient funds", by simp [hle, hgt]⟩
    · exact ⟨"Amount must be positive", by simp [hle]⟩
  · intro h
    push_neg at h
    obtain ⟨hle, hpos⟩ := h
    have h1 : ¬ amount ≤ 0 := not_le.mpr hpos
    simp only [h1, if_false, not_lt.mpr hle |> fun hh => hh]
    have h2 : ¬ amount > acc.balance := not_lt.mpr hle
    simp [h1, h2]
    linarith

/-- Witness for C1 at a concrete account (balance 100) and amount 30. -/
theorem claim1_withdraw_spec_witness :
    (BankAccount.withdraw ⟨"123", "Test", 100⟩ 30).1 = .ok () ∧
    (BankAccount.withdraw ⟨"123", "Test", 100⟩ 30).2.balance = 100 - 30 ∧
    (BankAccount.withdraw ⟨"123", "Test", 100⟩ 30).2.balance < 100 := by
  have h := (claim1_withdraw_spec ⟨"123", "Test", 100⟩ 30).2 (by norm_num)
  exact ⟨h.1, h.2.1, h.2.2⟩

/-- `deposit` sends a nonnegative balance to a nonnegative balance. -/
lemma deposit_nonneg (acc : BankAccount) (amount : ℚ) (h : 0 ≤ acc.balance) :
    0 ≤ (acc.deposit amount).balance := by
  unfold BankAccount.deposit
  by_cases hp : amount > 0
  · simp only [hp, if_true]
    have := hp.le
    simpa using by linarith
  · simpa [hp] using h

/-- `withdraw` sends a nonnegative balance to a nonnegative balance. -/
lemma withdraw_nonneg (acc : BankAccount) (amount : ℚ) (h : 0 ≤ acc.balance) :
    0 ≤ (acc.withdraw amount).2.balance := by
  unfold BankAccount.withdraw
  by_cases h1 : amount ≤ 0
  · simpa [h1] using h
  · by_cases h2 : amount > acc.balance
    · simpa [h1, h2] using h
    · simp only [h1, if_false, h2, if_false]
      have : amount ≤ acc.balance := not_lt.mp h2
      simpa using by linarith

/-- Any single account operation preserves nonnegativity of the balance. -/
lemma runOp_nonneg (acc : BankAccount) (op : AccountOp) (h : 0 ≤ acc.balance) :
    0 ≤ (runOp acc op).balance := by
  cases op with
  | deposit amount => exact deposit_nonneg acc amount h
  | withdraw amount => exact withdraw_nonneg acc amount h

/-- `foldl` over operations preserves nonnegativity of the balance. -/
lemma runOps_nonneg (ops : List AccountOp) :
    ∀ acc : BankAccount, 0 ≤ acc.balance → 0 ≤ (runOps acc ops).balance := by
  induction ops with
  | nil => intro acc h; simpa [runOps] using h
  | cons op rest ih =>
      intro acc h
      have hstep : 0 ≤ (runOp acc op).balance := runOp_nonneg acc op h
      simpa [runOps, List.foldl] using ih (runOp acc op) hstep

/-- C2: accounts created by `BankAccount::new` and mutated only by `deposit`
and `withdraw` calls always have nonnegative balance: `new` establishes
`balance = 0 ≥ 0` and every operation in the sequence preserves it. -/
theorem claim2_balance_invariant (account_number owner : String)
    (ops : List AccountOp) :
    0 ≤ (runOps (BankAccount.new account_number owner) ops).balance :=
  runOps_nonneg ops (BankAccount.new account_number owner) (by
    simp [BankAccount.new])

/-- C9: a deposit of a non-positive amount is a silent no-op: `deposit`
returns no error indication (its return type is the unit) and the resulting
account equals the original in every field. -/
theorem claim9_deposit_nonpositive_noop (acc : BankAccount) (amount : ℚ)
    (h : amount ≤ 0) : acc.deposit amount = acc := by
  unfold BankAccount.deposit
  simp [not_lt.mpr h]

/-- Witness for C9 at a concrete account and amount -5. -/
theorem claim9_deposit_nonpositive_noop_witness :
    BankAccount.deposit ⟨"123", "Test", 40⟩ (-5) = ⟨"123", "Test", 40⟩ :=
  claim9_deposit_nonpositive_noop ⟨"123", "Test", 40⟩ (-5) (by norm_num)

/-- C10: `withdraw` is atomic on failure: whenever it returns an error, the
account — balance and every other field — is exactly as before the call. -/
theorem claim10_withdraw_atomic (acc : BankAccount) (amount : ℚ) (e : String)
    (h : (acc.withdraw amount).1 = .error e) :
    (acc.withdraw amount).2 = acc := by
  unfold BankAccount.withdraw at h ⊢
  by_cases h1 : amount ≤ 0
  · simp [h1]
  · by_cases h2 : amount > acc.balance
    · simp [h1, h2]
    · simp [h1, h2] at h

/-- Witness for C10: withdrawing 200 from a balance of 100 fails and leaves
the account unchanged. -/
theorem claim10_withdraw_atomic_witness :
    (BankAccount.withdraw ⟨"123", "Test", 100⟩ 200).2 = ⟨"123", "Test", 100⟩ := by
  refine claim10_withdraw_atomic ⟨"123", "Test", 100⟩ 200 "Insufficient funds" ?_
  unfold BankAccount.withdraw
  norm_num

/-- C3 counterexample: at `(a, b) = (i32::MIN, -1)` the divisor is nonzero,
yet neither i32 `divide` yields `Some(a / b)` — the division operator's
overflow check panics — so the claim "divide(a, b) with b ≠ 0 yields a/b for
all three divide functions" fails at this concrete in-range input. -/
theorem claim3_divide_counterexample :
    (-1 : Int) ≠ 0 ∧
    MainRs.divide (-2147483648) (-1) =
      .error "attempt to divide with overflow" ∧
    EnumsAndMatching.divide (-2147483648) (-1) =
      .error "attempt to divide with overflow" := by
  refine ⟨by norm_num, ?_, ?_⟩ <;> decide

/-- C3 (amended): dividing by zero yields the empty/error outcome in all
three `divide` functions; for a nonzero divisor the f64 `Result` version
yields `a / b`, and the two i32 `Option` versions yield `Some(a / b)`
(truncated division) except at `(i32::MIN, -1)`, where both panic with a
division overflow. -/
theorem claim3_divide_spec (a b : Int) (x y : ℚ) :
    MainRs.divide a 0 = .ok none ∧
    EnumsAndMatching.divide a 0 = .ok none ∧
    ErrorHandling.divide x 0 = .error "Cannot divide by zero" ∧
    (b ≠ 0 → ¬(a = -2147483648 ∧ b = -1) →
      MainRs.divide a b = .ok (some (a.tdiv b))) ∧
    (b ≠ 0 → ¬(a = -2147483648 ∧ b = -1) →
      EnumsAndMatching.divide a b = .ok (some (a.tdiv b))) ∧
    MainRs.divide (-2147483648) (-1) =
      .error "attempt to divide with overflow" ∧
    EnumsAndMatching.divide (-2147483648) (-1) =
      .error "attempt to divide with overflow" ∧
    (y ≠ 0 → ErrorHandling.divide x y = .ok (x / y)) := by
  refine ⟨?_, ?_, ?_, ?_, ?_, by decide, by decide, ?_⟩
  · simp [MainRs.divide]
  · simp [EnumsAndMatching.divide]
  · simp [ErrorHandling.divide]
  · intro hb hmin; simp [MainRs.divide, RustStd.i32Div, hb, hmin]
  · intro hb hmin; simp [EnumsAndMatching.divide, RustStd.i32Div, hb, hmin]
  · intro hy; simp [ErrorHandling.divide, hy]

/-- Witness for C3 at `10 / 2` (and, via the unconditional parts, `10 / 0`
and the panic at `(i32::MIN, -1)`). -/
theorem claim3_divide_spec_witness :
    MainRs.divide 10 0 = .ok none ∧
    MainRs.divide 10 2 = .ok (some 5) ∧
    EnumsAndMatching.divide 10 2 = .ok (some 5) ∧
    ErrorHandling.divide 10 2 = .ok 5 := by
  have h := claim3_divide_spec 10 2 10 2
  refine ⟨h.1, ?_, ?_, ?_⟩
  · rw [h.2.2.2.1 (by norm_num) (by norm_num)]; decide
  · rw [h.2.2.2.2.1 (by norm_num) (by norm_num)]; decide
  · rw [h.2.2.2.2.2.2.2 (by norm_num)]; norm_num

/-- C6: `TrafficLight::can_go` returns `true` exactly for `Green`, and
returns `false` for both `Red` and `Yellow`; every variant of the closed
set is handled. -/
theorem claim6_can_go_spec :
    (∀ l : EnumsAndMatching.TrafficLight,
      l.can_go = true ↔ l = EnumsAndMatching.TrafficLight.Green) ∧
    EnumsAndMatching.TrafficLight.can_go .Red = false ∧
    EnumsAndMatching.TrafficLight.can_go .Yellow = false := by
  refine ⟨?_, rfl, rfl⟩
  intro l
  cases l <;> simp [EnumsAndMatching.TrafficLight.can_go]

/-- C4: the two `expect` assertions in the demo cannot fire:
`Database::connect` returns `Ok` from every state, `Database::disconnect`
returns `Ok` exactly when `connected` is true, and in the demo sequence
new → connect → query → disconnect both expected calls return `Ok`. -/
theorem claim4_expects_unreachable (db : ErrorHandling.Database) :
    db.connect.1 = .ok () ∧
    (db.disconnect.1 = .ok () ↔ db.connected = true) ∧
    ErrorHandling.Database.new.connect.1 = .ok () ∧
    ErrorHandling.Database.new.connect.2.query "SELECT * FROM users" =
      .ok ["result1", "result2"] ∧
    ErrorHandling.Database.new.connect.2.disconnect.1 = .ok () := by
  refine ⟨rfl, ?_, rfl, by decide, rfl⟩
  cases h : db.connected <;>
    simp [ErrorHandling.Database.disconnect, h]

/-- C5: chains of fallible operations short-circuit at the first failure:
if the integer parse of the trimmed input fails, `process_number` returns
that parse error (formatted) and the checked multiplication is never
applied; if opening the file fails, `read_age_from_file` returns that io
error and no read, parse, or validation step contributes to the result. -/
theorem claim5_short_circuit (input : String) (e : RustStd.ParseIntError)
    (fs : String → Except String String) (filename msg : String) :
    (RustStd.parseI32 (RustStd.trim input.toList) = .error e →
      ErrorHandling.process_number input =
        .error ("Parse error: " ++ e.description)) ∧
    (fs filename = .error msg →
      ErrorHandling.read_age_from_file fs filename =
        .error (.IoError msg)) := by
  constructor
  · intro h
    unfold ErrorHandling.process_number
    rw [h]
  · intro h
    unfold ErrorHandling.read_age_from_file
    rw [h]

/-- Witness for C5: `process_number "abc"` stops at the parse error, and
reading from a file system in which the file is missing stops at the io
error. -/
theorem claim5_short_circuit_witness :
    ErrorHandling.process_number "abc" =
      .error ("Parse error: " ++ RustStd.ParseIntError.invalidDigit.description) ∧
    ErrorHandling.read_age_from_file
        (fun _ => .error "No such file or directory") "age.txt" =
      .error (.IoError "No such file or directory") := by
  have h := claim5_short_circuit "abc" .invalidDigit
    (fun _ => .error "No such file or directory") "age.txt"
    "No such file or directory"
  exact ⟨h.1 (by decide), h.2 rfl⟩

/-- C7: the guarded arms of `parse_age` are tried top-to-bottom and the
first matching guard wins: an input parsing to `v ≤ 120` yields `Ok(v)`,
an input parsing to `v > 120` falls through to the unrealistic-age error,
and a failed parse yields the invalid-number error. -/
theorem claim7_parse_age_spec (input : String) (v : Nat)
    (e : RustStd.ParseIntError) :
    (RustStd.parseU32 input.toList = .ok v → v ≤ 120 →
      EnumsAndMatching.parse_age input = .ok v) ∧
    (RustStd.parseU32 input.toList = .ok v → v > 120 →
      EnumsAndMatching.parse_age input = .error "Age seems unrealistic") ∧
    (RustStd.parseU32 input.toList = .error e →
      EnumsAndMatching.parse_age input = .error "Not a valid number") := by
  refine ⟨?_, ?_, ?_⟩
  · intro h hle
    unfold EnumsAndMatching.parse_age
    rw [h]
    simp [hle]
  · intro h hgt
    unfold EnumsAndMatching.parse_age
    rw [h]
    simp only
    rw [if_neg (by omega)]
  · intro h
    unfold EnumsAndMatching.parse_age
    rw [h]

/-- Witness for C7 on the demo inputs "25", "150" and "abc". -/
theorem claim7_parse_age_spec_witness :
    EnumsAndMatching.parse_age "25" = .ok 25 ∧
    EnumsAndMatching.parse_age "150" = .error "Age seems unrealistic" ∧
    EnumsAndMatching.parse_age "abc" = .error "Not a valid number" :=
  ⟨(claim7_parse_age_spec "25" 25 .empty).1 (by decide) (by norm_num),
   (claim7_parse_age_spec "150" 150 .empty).2.1 (by decide) (by norm_num),
   (claim7_parse_age_spec "abc" 0 .invalidDigit).2.2 (by decide)⟩

/-- C8: the area of `Rectangle { width: 4.0, height: 5.0 }` is exactly 20,
and the area of `Circle(1.0)` is within 1e-4 of π. -/
theorem claim8_shape_area :
    EnumsAndMatching.Shape.area (.Rectangle 4 5) = 20 ∧
    |EnumsAndMatching.Shape.area (.Circle 1) - Real.pi| < 1e-4 := by
  constructor
  · simp [EnumsAndMatching.Shape.area]
    norm_num
  · simp [EnumsAndMatching.Shape.area]
    norm_num
